import Mathlib

/-!
Shallow embedding of the INE-API Azure-function ETL pipeline
(source file: get-ine-data/__init__.py).

The pipeline queries a statistics API year by year, merges the per-year
nested JSON payloads into one mapping, uploads the raw mapping, flattens
it into a table, and uploads the table as CSV.

Modelling conventions:
  - A JSON record is an association list of string keys to string values,
    in insertion order, mirroring a Python dict of leaf observations.
  - The ambient HTTP layer (requests.get) is an oracle from the full
    request URL to a `FetchResult`: either a response carrying a status
    code together with the two body fields the source reads
    (UltimoPref and Dados), or a raised exception (HTTPError / other).
  - Raising NameError on use of a never-assigned local is modelled by
    `PyError.nameError`; the pandas errors ValueError (concat of an empty
    list) and KeyError (dropping an absent column) and blob-upload
    failures get their own constructors.
  - A pandas DataFrame is a column-name list (schema order) plus one
    association list per row; NaN cells are absent keys.
-/

/-- One leaf observation as returned by the API: an ordered mapping from
field name to value. -/
abbrev Record := List (String × String)

/-- The merged raw mapping: year label to the list of that year's records. -/
abbrev RawData := List (String × List Record)

/-- Python-level failure outcomes that escape a function. -/
inductive PyError where
  | nameError
  | keyError
  | valueError
  | uploadError
deriving DecidableEq

/-- Outcome of one requests.get call, as seen by the source: either a
response (status code, the UltimoPref field if readable as an int, the
Dados field if present and well-formed), or a raised exception. -/
inductive FetchResult where
  | resp (status : Nat) (ultimoPref : Option Int) (dados : Option RawData)
  | raisesHTTP
  | raisesOther
deriving DecidableEq

/-- Source constant: indicator = 0008074. -/
def indicator : String := "0008074"

/-- Source constant: the API base query URL. -/
def reqUrl : String :=
  "https://www.ine.pt/ine/json_indicador/pindica.jsp?varcd=" ++ indicator
    ++ "&lang=EN&op=2&Dim1="

/-- Python range(a, b) over integers, as a list. -/
def pyRange (a b : Int) : List Int :=
  (List.range (b - a).toNat).map (fun (i : Nat) => a + (i : Int))

/-- The data_range local of get_parameters_range: range(2011, last_year+1). -/
def data_range (last_year : Int) : List Int :=
  pyRange 2011 (last_year + 1)

/-- The parameters_list local of get_parameters_range:
one token per year in the data range. -/
def parametersListOf (last_year : Int) : List String :=
  (data_range last_year).map (fun item => "S7A" ++ toString item)

/-- get_parameters_range: asks the API with the fixed token S7A2011 and,
on HTTP 200, builds the token list through the reported last year.
On any non-200 status or caught exception the local parameters_list is
never assigned, so the final return statement raises NameError. -/
def get_parameters_range (fetch : String → FetchResult) (reqUrl : String) :
    Except PyError (List String) :=
  match fetch (reqUrl ++ "S7A2011") with
  | .resp status up _ =>
    if status == 200 then
      match up with
      | some last_year => .ok (parametersListOf last_year)
      | none => .error .nameError
    else .error .nameError
  | .raisesHTTP => .error .nameError
  | .raisesOther => .error .nameError

/-- Python item[-4:] (the whole string when shorter than four characters). -/
def lastFour (s : String) : String :=
  String.mk (s.data.drop (s.data.length - 4))

/-- Python dict assignment d[k] = v on an insertion-ordered mapping:
replace in place when the key exists, append otherwise. -/
def dictSet (d : List (String × α)) (k : String) (v : α) : List (String × α) :=
  if d.any (fun p => p.1 == k) then
    d.map (fun p => if p.1 == k then (k, v) else p)
  else d ++ [(k, v)]

/-- Python dict.update: fold dictSet over the new pairs. -/
def dictUpdate (d new : List (String × α)) : List (String × α) :=
  new.foldl (fun acc p => dictSet acc p.1 p.2) d

/-- The per-token loop body of get_raw_data. The second argument is the
current value of the local variable year (none while never assigned).
A non-200 response reaches the success-log in the try/else clause, which
reads year: with year never assigned this raises NameError, uncaught
because the else clause is outside the except protection. -/
def get_raw_data_loop (fetch : String → FetchResult) (reqUrl : String) :
    List String → Option String → RawData → Except PyError RawData
  | [], _, data => .ok data
  | item :: rest, year, data =>
    match fetch (reqUrl ++ item) with
    | .raisesHTTP => get_raw_data_loop fetch reqUrl rest year data
    | .raisesOther => get_raw_data_loop fetch reqUrl rest year data
    | .resp status _ dados =>
      if status == 200 then
        match dados with
        | some result =>
          get_raw_data_loop fetch reqUrl rest (some (lastFour item)) (dictUpdate data result)
        | none =>
          get_raw_data_loop fetch reqUrl rest (some (lastFour item)) data
      else
        match year with
        | some _ => get_raw_data_loop fetch reqUrl rest year data
        | none => .error .nameError

/-- get_raw_data: one request per token; on HTTP 200 the Dados mapping of
the response is merged into the accumulator with dict.update. -/
def get_raw_data (fetch : String → FetchResult) (reqUrl : String)
    (parameters_list : List String) : Except PyError RawData :=
  get_raw_data_loop fetch reqUrl parameters_list none []

/-- A pandas DataFrame: schema (column order) and rows as cell mappings. -/
structure DataFrame where
  cols : List String
  rows : List Record
deriving DecidableEq

/-- Extend a column list with the not-yet-present names, in order. -/
def addCols (acc : List String) (ks : List String) : List String :=
  ks.foldl (fun a k => if a.contains k then a else a ++ [k]) acc

/-- First-seen union of the key sets of a record list. -/
def unionCols (records : List Record) : List String :=
  records.foldl (fun acc r => addCols acc (r.map Prod.fst)) []

/-- pd.json_normalize(data, record_path): the rows are the records stored
under the given key of the mapping (the key always exists at the call
site, where it comes from iterating the mapping itself). -/
def json_normalize (data : RawData) (record_path : String) : DataFrame :=
  let records := (List.lookup record_path data).getD []
  ⟨unionCols records, records⟩

/-- df[k] = v for a scalar v: overwrite every cell of an existing column,
or append a new column set to v on every row. -/
def setColumn (df : DataFrame) (k v : String) : DataFrame :=
  ⟨if df.cols.contains k then df.cols else df.cols ++ [k],
    df.rows.map (fun r => dictSet r k v)⟩

/-- pd.concat(dfs, ignore_index=True): raises ValueError on an empty list;
otherwise aligns columns by name (first-seen order) and concatenates rows. -/
def concat (dfs : List DataFrame) : Except PyError DataFrame :=
  match dfs with
  | [] => .error .valueError
  | _ :: _ =>
    .ok ⟨dfs.foldl (fun acc df => addCols acc df.cols) [],
      (dfs.map DataFrame.rows).flatten⟩

/-- df.drop(columns=cs): KeyError when a requested label is absent. -/
def dropColumns (df : DataFrame) (cs : List String) : Except PyError DataFrame :=
  if cs.all (fun c => df.cols.contains c) then
    .ok ⟨df.cols.filter (fun c => !(cs.contains c)),
      df.rows.map (fun r => r.filter (fun p => !(cs.contains p.1)))⟩
  else .error .keyError

/-- The rename table of transform_raw_data. -/
def renameMap : List (String × String) :=
  [("geocod", "Geo Code"), ("geodsg", "Geo"), ("dim_3", "Crime Code"),
    ("dim_3_t", "Crime"), ("valor", "Value")]

/-- Apply a rename table to one column name. -/
def renameKey (m : List (String × String)) (c : String) : String :=
  (List.lookup c m).getD c

/-- df.rename(columns=m): renames matching labels, keeps the rest. -/
def renameColumns (df : DataFrame) (m : List (String × String)) : DataFrame :=
  ⟨df.cols.map (renameKey m),
    df.rows.map (fun r => r.map (fun p => (renameKey m p.1, p.2)))⟩

/-- Source constant: the Formule column value. -/
def formule : String := "(Number of crimes/ Resident population)*1000"

/-- Source constant: the Measure Of Unit column value. -/
def measureOfUnit : String := "Permillage"

/-- The two flag columns dropped by transform_raw_data. -/
def flagColumns : List String := ["sinal_conv", "sinal_conv_desc"]

/-- transform_raw_data: per year, flatten that year's records and tag them
with the year; concatenate all years; append the three constant columns;
drop the two flag columns; rename five columns. -/
def transform_raw_data (raw_data : RawData) : Except PyError DataFrame :=
  let clean_data := raw_data.map (fun item =>
    setColumn (json_normalize raw_data item.1) "Year" item.1)
  match concat clean_data with
  | .error e => .error e
  | .ok df0 =>
    let df1 := setColumn df0 "Indicator Code" indicator
    let df2 := setColumn df1 "Formule" formule
    let df3 := setColumn df2 "Measure Of Unit" measureOfUnit
    match dropColumns df3 flagColumns with
    | .error e => .error e
    | .ok df4 => .ok (renameColumns df4 renameMap)

/-- One CSV cell, quoted exactly when it holds a separator, quote or
line break (quotes are doubled inside a quoted cell). -/
def csvCell (s : String) : String :=
  if s.data.any (fun c => c == ',' || c == '"' || c == '\n') then
    "\"" ++ String.mk (s.data.flatMap (fun c => if c == '"' then ['"', '"'] else [c])) ++ "\""
  else s

/-- df.to_csv(index=False), as the list of output lines: a header line of
the column names followed by one line per row; NaN cells print empty. -/
def to_csv (df : DataFrame) : List String :=
  String.intercalate "," (df.cols.map csvCell) ::
    df.rows.map (fun r =>
      String.intercalate "," (df.cols.map (fun c => csvCell ((List.lookup c r).getD ""))))

/-- Observable sink effects of a run: the raw JSON blob and the clean CSV
blob, each identified by its content. -/
inductive Event where
  | rawUpload (content : RawData)
  | cleanUpload (lines : List String)
deriving DecidableEq

/-- load_raw_data: uploads the raw mapping; an upload failure raises. -/
def load_raw_data (ok : Bool) (raw_data : RawData) : Except PyError Event :=
  if ok then .ok (.rawUpload raw_data) else .error .uploadError

/-- load_clean_data: uploads the table as CSV; an upload failure raises. -/
def load_clean_data (ok : Bool) (clean_data : DataFrame) : Except PyError Event :=
  if ok then .ok (.cleanUpload (to_csv clean_data)) else .error .uploadError

/-- The ambient world of one run: the HTTP oracle and whether each of the
two blob uploads succeeds. -/
structure Env where
  fetch : String → FetchResult
  rawUploadOk : Bool
  cleanUploadOk : Bool

/-- The source's main function (the name main is reserved in Lean): the
four stages in source order. An uncaught exception in any stage aborts
the run; the trace lists the sink events that happened. -/
def mainFn (env : Env) : List Event × Option PyError :=
  match get_parameters_range env.fetch reqUrl with
  | .error e => ([], some e)
  | .ok parameters =>
    match get_raw_data env.fetch reqUrl parameters with
    | .error e => ([], some e)
    | .ok raw_data =>
      match load_raw_data env.rawUploadOk raw_data with
      | .error e => ([], some e)
      | .ok ev1 =>
        match transform_raw_data raw_data with
        | .error e => ([ev1], some e)
        | .ok clean_data =>
          match load_clean_data env.cleanUploadOk clean_data with
          | .error e => ([ev1], some e)
          | .ok ev2 => ([ev1, ev2], none)

/-- The field names of one leaf observation, in the order the API returns
them (the five kept data fields followed by the two flag fields). -/
def ineKeys : List String :=
  ["geocod", "geodsg", "dim_3", "dim_3_t", "valor", "sinal_conv", "sinal_conv_desc"]

/-- A raw mapping of the shape the transformer expects: distinct year
keys (it comes from a Python dict), at least one year, every year holding
at least one observation, and every observation carrying exactly the API
field names in order. -/
def WellShaped (raw : RawData) : Prop :=
  (raw.map Prod.fst).Nodup ∧ raw ≠ [] ∧
    ∀ p ∈ raw, p.2 ≠ [] ∧ ∀ r ∈ p.2, r.map Prod.fst = ineKeys

/-- Specification-side description of one output row: the observation
followed by the year tag and the three constant columns, with the flag
fields removed and the five data fields renamed. The transformer is
proved to produce exactly these rows. -/
def specRow (year : String) (r : Record) : Record :=
  ((r ++ [("Year", year), ("Indicator Code", indicator), ("Formule", formule),
      ("Measure Of Unit", measureOfUnit)]).filter
    (fun p => !(flagColumns.contains p.1))).map
    (fun p => (renameKey renameMap p.1, p.2))

/-- The output schema of the transformer on well-shaped input. -/
def finalCols : List String :=
  ["Geo Code", "Geo", "Crime Code", "Crime", "Value", "Year",
    "Indicator Code", "Formule", "Measure Of Unit"]

/-- json_normalize with the consumed mapping threaded through, returning
it alongside the new table: pandas builds a fresh DataFrame and leaves
the argument mapping untouched. -/
def json_normalize_st (data : RawData) (record_path : String) : DataFrame × RawData :=
  (json_normalize data record_path, data)

/-- transform_raw_data with the raw mapping threaded through every step
that receives it, so that the final mapping state is observable: the
in-place pandas column edits act on the freshly built tables only. -/
def transform_raw_data_st (raw0 : RawData) : Except PyError DataFrame × RawData :=
  let step := fun (s : List DataFrame × RawData) (item : String × List Record) =>
    let dfRaw := json_normalize_st s.2 item.1
    (s.1 ++ [setColumn dfRaw.1 "Year" item.1], dfRaw.2)
  let s := raw0.foldl step ([], raw0)
  match concat s.1 with
  | .error e => (.error e, s.2)
  | .ok df0 =>
    let df3 := setColumn (setColumn (setColumn df0 "Indicator Code" indicator)
      "Formule" formule) "Measure Of Unit" measureOfUnit
    match dropColumns df3 flagColumns with
    | .error e => (.error e, s.2)
    | .ok df4 => (.ok (renameColumns df4 renameMap), s.2)

/-- Scenario record: the single observation of 2011 (one region, one
category). -/
def rec11 : Record :=
  [("geocod", "11"), ("geodsg", "Norte"), ("dim_3", "T"), ("dim_3_t", "Total"),
    ("valor", "33.8"), ("sinal_conv", ""), ("sinal_conv_desc", "")]

/-- Scenario record: the single observation of 2012. -/
def rec12 : Record :=
  [("geocod", "11"), ("geodsg", "Norte"), ("dim_3", "T"), ("dim_3_t", "Total"),
    ("valor", "35.1"), ("sinal_conv", ""), ("sinal_conv_desc", "")]

/-- Scenario HTTP oracle: the range request reports 2012 as last year and
each of the two year requests returns its single observation. -/
def scenarioFetch : String → FetchResult := fun u =>
  if u = reqUrl ++ "S7A2011" then .resp 200 (some 2012) (some [("2011", [rec11])])
  else if u = reqUrl ++ "S7A2012" then .resp 200 (some 2012) (some [("2012", [rec12])])
  else .raisesOther

/-- The merged raw mapping the scenario produces. -/
def raw8 : RawData := [("2011", [rec11]), ("2012", [rec12])]

/-- Header line of the scenario CSV. -/
def csvHeader : String :=
  "Geo Code,Geo,Crime Code,Crime,Value,Year,Indicator Code,Formule,Measure Of Unit"

/-- First data line of the scenario CSV. -/
def csvRow1 : String :=
  "11,Norte,T,Total,33.8,2011,0008074,(Number of crimes/ Resident population)*1000,Permillage"

/-- Second data line of the scenario CSV. -/
def csvRow2 : String :=
  "11,Norte,T,Total,35.1,2012,0008074,(Number of crimes/ Resident population)*1000,Permillage"

set_option maxRecDepth 100000

/-! Helper lemmas shared by several claim theorems. -/

/-- Looking up a key present in a mapping with distinct keys returns the
stored value. -/
theorem lookup_of_mem_nodup {α : Type} (raw : List (String × α)) (p : String × α)
    (hnd : (raw.map Prod.fst).Nodup) (hp : p ∈ raw) :
    List.lookup p.1 raw = some p.2 := by
  induction raw with
  | nil => cases hp
  | cons q t ih =>
    rw [List.map_cons, List.nodup_cons] at hnd
    rcases List.mem_cons.mp hp with h | h
    · subst h; simp [List.lookup]
    · have hq : (p.1 == q.1) = false := by
        refine beq_eq_false_iff_ne.mpr ?_
        intro he
        exact hnd.1 (he ▸ List.mem_map_of_mem Prod.fst h)
      rw [List.lookup, hq]
      exact ih hnd.2 h

/-- A fold whose step leaves the accumulator unchanged on every element
returns the initial accumulator. -/
theorem foldl_eq_of_fixed {α β : Type} (g : α → β → α) (a : α) (l : List β)
    (h : ∀ b ∈ l, g a b = a) : l.foldl g a = a := by
  induction l with
  | nil => rfl
  | cons q t ih =>
    rw [List.foldl_cons, h q (List.mem_cons_self q t)]
    exact ih (fun b hb => h b (List.mem_cons_of_mem q hb))

/-- No entry of a mapping matches a key that is not among its keys. -/
theorem anyKey_eq_false {α : Type} (r : List (String × α)) (k : String)
    (h : k ∉ r.map Prod.fst) : (r.any fun p => p.1 == k) = false := by
  rw [List.any_eq_false]
  intro p hp
  simp only [beq_iff_eq]
  intro he
  exact h (he ▸ List.mem_map_of_mem Prod.fst hp)

/-- Setting an absent key appends the new pair at the end. -/
theorem dictSet_append {α : Type} (r : List (String × α)) (k : String) (v : α)
    (h : k ∉ r.map Prod.fst) : dictSet r k v = r ++ [(k, v)] := by
  simp only [dictSet, anyKey_eq_false r k h]
  simp

/-- The column union of a nonempty uniformly keyed record list is the
common key list. -/
theorem unionCols_wellKeyed (recs : List Record) (hne : recs ≠ [])
    (h : ∀ r ∈ recs, r.map Prod.fst = ineKeys) : unionCols recs = ineKeys := by
  cases recs with
  | nil => exact absurd rfl hne
  | cons r t =>
    rw [unionCols, List.foldl_cons, h r (List.mem_cons_self r t)]
    have h0 : addCols [] ineKeys = ineKeys := by decide
    rw [h0]
    refine foldl_eq_of_fixed _ _ _ ?_
    intro b hb
    rw [h b (List.mem_cons_of_mem r hb)]
    decide

/-- On a well-shaped year entry, flattening and tagging with the year
yields the table with the seven field columns plus Year, one row per
record with the year appended. -/
theorem yearDF_eq (raw : RawData) (p : String × List Record)
    (hnd : (raw.map Prod.fst).Nodup) (hp : p ∈ raw) (hne : p.2 ≠ [])
    (hk : ∀ r ∈ p.2, r.map Prod.fst = ineKeys) :
    setColumn (json_normalize raw p.1) "Year" p.1
      = ⟨ineKeys ++ ["Year"], p.2.map (fun r => r ++ [("Year", p.1)])⟩ := by
  have hlk : List.lookup p.1 raw = some p.2 := lookup_of_mem_nodup raw p hnd hp
  have hrows : p.2.map (fun r => dictSet r "Year" p.1)
      = p.2.map (fun r => r ++ [("Year", p.1)]) :=
    List.map_congr_left (fun r hr => dictSet_append r "Year" p.1 (by rw [hk r hr]; decide))
  have hc : ineKeys.contains "Year" = false := by decide
  simp only [json_normalize, hlk, Option.getD_some, unionCols_wellKeyed p.2 hne hk,
    setColumn, hc]
  simp [hrows]

/-- Appending the three constant columns to a row that carries the seven
field cells plus the Year cell appends three new pairs. -/
theorem constColumns_append (r : Record) (h : r.map Prod.fst = ineKeys ++ ["Year"]) :
    dictSet (dictSet (dictSet r "Indicator Code" indicator) "Formule" formule)
      "Measure Of Unit" measureOfUnit
      = r ++ [("Indicator Code", indicator), ("Formule", formule),
          ("Measure Of Unit", measureOfUnit)] := by
  have h1 : dictSet r "Indicator Code" indicator = r ++ [("Indicator Code", indicator)] :=
    dictSet_append _ _ _ (by rw [h]; decide)
  have hk1 : (r ++ [("Indicator Code", indicator)]).map Prod.fst
      = (ineKeys ++ ["Year"]) ++ ["Indicator Code"] := by
    simp [h]
  have h2 : dictSet (r ++ [("Indicator Code", indicator)]) "Formule" formule
      = (r ++ [("Indicator Code", indicator)]) ++ [("Formule", formule)] :=
    dictSet_append _ _ _ (by rw [hk1]; decide)
  have hk2 : ((r ++ [("Indicator Code", indicator)]) ++ [("Formule", formule)]).map Prod.fst
      = ((ineKeys ++ ["Year"]) ++ ["Indicator Code"]) ++ ["Formule"] := by
    simp [h]
  have h3 : dictSet ((r ++ [("Indicator Code", indicator)]) ++ [("Formule", formule)])
      "Measure Of Unit" measureOfUnit
      = ((r ++ [("Indicator Code", indicator)]) ++ [("Formule", formule)])
          ++ [("Measure Of Unit", measureOfUnit)] :=
    dictSet_append _ _ _ (by rw [hk2]; decide)
  rw [h1, h2, h3]
  simp [List.append_assoc]

/-- One well-shaped row, pushed through the year tag, the three constant
columns, the flag drop and the rename, is exactly its specification row. -/
theorem specRow_pipeline (y : String) (r : Record) (hk : r.map Prod.fst = ineKeys) :
    ((dictSet (dictSet (dictSet (r ++ [("Year", y)]) "Indicator Code" indicator)
        "Formule" formule) "Measure Of Unit" measureOfUnit).filter
      (fun p => !(flagColumns.contains p.1))).map
      (fun p => (renameKey renameMap p.1, p.2))
      = specRow y r := by
  have hky : (r ++ [("Year", y)]).map Prod.fst = ineKeys ++ ["Year"] := by simp [hk]
  rw [constColumns_append _ hky, specRow]
  simp [List.append_assoc]

/-- Row pipeline lifted to one year of rows. -/
theorem rows_one_year (y : String) (rs : List Record)
    (h : ∀ r ∈ rs, r.map Prod.fst = ineKeys) :
    List.map (fun r => List.map (fun p => (renameKey renameMap p.1, p.2)) r)
      (List.map (fun r => List.filter (fun p => !(flagColumns.contains p.1)) r)
        (List.map (fun r => dictSet r "Measure Of Unit" measureOfUnit)
          (List.map (fun r => dictSet r "Formule" formule)
            (List.map (fun r => dictSet r "Indicator Code" indicator)
              (rs.map (fun r => r ++ [("Year", y)]))))))
      = rs.map (specRow y) := by
  simp only [List.map_map]
  refine List.map_congr_left ?_
  intro r hr
  exact specRow_pipeline y r (h r hr)

/-- Row pipeline lifted to the concatenation of all years. -/
theorem rows_pipeline_flatten (L : List (String × List Record))
    (hall : ∀ p ∈ L, ∀ r ∈ p.2, r.map Prod.fst = ineKeys) :
    List.map (fun r => List.map (fun p => (renameKey renameMap p.1, p.2)) r)
      (List.map (fun r => List.filter (fun p => !(flagColumns.contains p.1)) r)
        (List.map (fun r => dictSet r "Measure Of Unit" measureOfUnit)
          (List.map (fun r => dictSet r "Formule" formule)
            (List.map (fun r => dictSet r "Indicator Code" indicator)
              ((L.map (fun p => p.2.map (fun r => r ++ [("Year", p.1)]))).flatten)))))
      = (L.map (fun p => p.2.map (specRow p.1))).flatten := by
  induction L with
  | nil => rfl
  | cons q t ih =>
    simp only [List.map_cons, List.flatten_cons, List.map_append]
    rw [rows_one_year q.1 q.2 (hall q (List.mem_cons_self q t))]
    rw [ih (fun p hp => hall p (List.mem_cons_of_mem q hp))]

/-- Concatenating the per-year tables keeps the common schema and chains
the rows in year order. -/
theorem concat_yearDFs (q : String × List Record) (t : List (String × List Record)) :
    concat ((q :: t).map (fun p => DataFrame.mk (ineKeys ++ ["Year"])
        (p.2.map (fun r => r ++ [("Year", p.1)]))))
      = .ok ⟨ineKeys ++ ["Year"],
          ((q :: t).map (fun p => p.2.map (fun r => r ++ [("Year", p.1)]))).flatten⟩ := by
  simp only [List.map_cons, concat]
  refine congrArg Except.ok ?_
  simp only [DataFrame.mk.injEq]
  constructor
  · rw [List.foldl_cons]
    have h0 : addCols [] (ineKeys ++ ["Year"]) = ineKeys ++ ["Year"] := by decide
    rw [show addCols [] (DataFrame.mk (ineKeys ++ ["Year"])
        (q.2.map (fun r => r ++ [("Year", q.1)]))).cols = ineKeys ++ ["Year"] from h0]
    refine foldl_eq_of_fixed _ _ _ ?_
    intro df hdf
    obtain ⟨p, hp, rfl⟩ := List.mem_map.mp hdf
    show addCols (ineKeys ++ ["Year"]) (ineKeys ++ ["Year"]) = ineKeys ++ ["Year"]
    decide
  · simp only [List.map_cons, List.map_map]
    rfl

/-- Master description of the transformer on well-shaped input: it
succeeds, its schema is the nine final columns, and its rows are exactly
the specification rows of all observations in year order. -/
theorem transform_wellShaped (raw : RawData) (h : WellShaped raw) :
    transform_raw_data raw
      = .ok ⟨finalCols, (raw.map (fun p => p.2.map (specRow p.1))).flatten⟩ := by
  obtain ⟨hnd, hraw, hall⟩ := h
  obtain ⟨q, t, rfl⟩ : ∃ q t, raw = q :: t := by
    cases raw with
    | nil => exact absurd rfl hraw
    | cons q t => exact ⟨q, t, rfl⟩
  have hclean : (q :: t).map (fun item => setColumn (json_normalize (q :: t) item.1) "Year" item.1)
      = (q :: t).map (fun p => DataFrame.mk (ineKeys ++ ["Year"])
          (p.2.map (fun r => r ++ [("Year", p.1)]))) :=
    List.map_congr_left (fun p hp => yearDF_eq (q :: t) p hnd hp (hall p hp).1 (hall p hp).2)
  simp only [transform_raw_data]
  rw [hclean, concat_yearDFs q t]
  show Except.ok (DataFrame.mk finalCols
      (List.map (fun r => List.map (fun p => (renameKey renameMap p.1, p.2)) r)
        (List.map (fun r => List.filter (fun p => !(flagColumns.contains p.1)) r)
          (List.map (fun r => dictSet r "Measure Of Unit" measureOfUnit)
            (List.map (fun r => dictSet r "Formule" formule)
              (List.map (fun r => dictSet r "Indicator Code" indicator)
                (((q :: t).map (fun p => p.2.map (fun r => r ++ [("Year", p.1)]))).flatten)))))))
    = Except.ok (DataFrame.mk finalCols
        (((q :: t).map (fun p => p.2.map (specRow p.1))).flatten))
  exact congrArg (fun rs => Except.ok (DataFrame.mk finalCols rs))
    (rows_pipeline_flatten (q :: t) (fun p hp => (hall p hp).2))

/-- Every well-shaped record is the seven API fields in order, with some
values. -/
theorem record_shape (r : Record) (h : r.map Prod.fst = ineKeys) :
    ∃ a b c d e f g, r = [("geocod", a), ("geodsg", b), ("dim_3", c), ("dim_3_t", d),
      ("valor", e), ("sinal_conv", f), ("sinal_conv_desc", g)] := by
  rcases r with _|⟨⟨k1,a⟩, _|⟨⟨k2,b⟩, _|⟨⟨k3,c⟩, _|⟨⟨k4,d⟩, _|⟨⟨k5,e⟩, _|⟨⟨k6,f⟩, _|⟨⟨k7,g⟩, _|⟨p8, t⟩⟩⟩⟩⟩⟩⟩⟩
  all_goals simp [ineKeys] at h
  obtain ⟨rfl, rfl, rfl, rfl, rfl, rfl, rfl⟩ := h
  exact ⟨a, b, c, d, e, f, g, rfl⟩

/-- The Year cell of a specification row is its source year. -/
theorem specRow_lookup_year (y : String) (r : Record) (hk : r.map Prod.fst = ineKeys) :
    List.lookup "Year" (specRow y r) = some y := by
  obtain ⟨a, b, c, d, e, f, g, rfl⟩ := record_shape r hk
  rfl

/-- The three constant cells of a specification row hold the three
configured values. -/
theorem specRow_lookup_consts (y : String) (r : Record) (hk : r.map Prod.fst = ineKeys) :
    List.lookup "Indicator Code" (specRow y r) = some indicator ∧
    List.lookup "Formule" (specRow y r) = some formule ∧
    List.lookup "Measure Of Unit" (specRow y r) = some measureOfUnit := by
  obtain ⟨a, b, c, d, e, f, g, rfl⟩ := record_shape r hk
  exact ⟨rfl, rfl, rfl⟩

/-- A specification row carries no flag cell. -/
theorem specRow_lookup_flags (y : String) (r : Record) (hk : r.map Prod.fst = ineKeys) :
    List.lookup "sinal_conv" (specRow y r) = none ∧
    List.lookup "sinal_conv_desc" (specRow y r) = none := by
  obtain ⟨a, b, c, d, e, f, g, rfl⟩ := record_shape r hk
  exact ⟨rfl, rfl⟩

/-- Every output row comes from one observation of one year. -/
theorem mem_rows_structure (raw : RawData) (row : Record)
    (hrow : row ∈ (raw.map (fun p => p.2.map (specRow p.1))).flatten) :
    ∃ p r, p ∈ raw ∧ r ∈ p.2 ∧ row = specRow p.1 r := by
  obtain ⟨l, hl, hrl⟩ := List.mem_flatten.mp hrow
  obtain ⟨p, hp, rfl⟩ := List.mem_map.mp hl
  obtain ⟨r, hr, rfl⟩ := List.mem_map.mp hrl
  exact ⟨p, r, hp, hr, rfl⟩

/-- The Year column of the output, row by row, is the source year of each
observation. -/
theorem rows_year_column (raw : RawData)
    (hall : ∀ p ∈ raw, ∀ r ∈ p.2, r.map Prod.fst = ineKeys) :
    ((raw.map (fun p => p.2.map (specRow p.1))).flatten).map
        (fun row => List.lookup "Year" row)
      = (raw.map (fun p => p.2.map (fun _ => some p.1))).flatten := by
  rw [List.map_flatten, List.map_map]
  refine congrArg List.flatten ?_
  refine List.map_congr_left ?_
  intro p hp
  show (p.2.map (specRow p.1)).map (fun row => List.lookup "Year" row)
    = p.2.map (fun _ => some p.1)
  rw [List.map_map]
  refine List.map_congr_left ?_
  intro r hr
  exact specRow_lookup_year p.1 r (hall p hp r hr)

/-- Successive integers produced by mapping addition over a range. -/
theorem chain_succ_map_range (n : Nat) (a : Int) :
    List.Chain' (fun x y => y = x + 1) ((List.range n).map (fun (i : Nat) => a + (i : Int))) := by
  rw [List.chain'_map]
  cases n with
  | zero => simp
  | succ m =>
    rw [List.chain'_range_succ]
    intro i hi
    push_cast
    ring

/-- The per-year fold of the state-threaded transformer builds the same
per-year tables as the plain transformer and returns the raw mapping
unchanged. -/
theorem transform_st_foldl (l : List (String × List Record)) (r : RawData) :
    ∀ acc : List DataFrame,
      l.foldl
        (fun (s : List DataFrame × RawData) (item : String × List Record) =>
          (s.1 ++ [setColumn (json_normalize s.2 item.1) "Year" item.1], s.2))
        (acc, r)
      = (acc ++ l.map (fun item => setColumn (json_normalize r item.1) "Year" item.1), r) := by
  induction l with
  | nil => intro acc; simp
  | cons q t ih =>
    intro acc
    simp only [List.foldl_cons, List.map_cons]
    rw [ih]
    simp

/-! Claim theorems. -/

/-- C1: if the initial range-discovery request fails with an HTTP error or
any other exception, get_parameters_range defines no parameter list and
the final return of the undefined local raises NameError, so the function
returns no valid parameter list and no explicit failure signal either. -/
theorem get_parameters_range_failure_nameError (fetch : String → FetchResult) (u : String)
    (h : fetch (u ++ "S7A2011") = .raisesHTTP ∨ fetch (u ++ "S7A2011") = .raisesOther) :
    get_parameters_range fetch u = .error .nameError := by
  rcases h with h | h <;> simp [get_parameters_range, h]

/-- Witness for C1 at a concrete oracle that raises an HTTP error. -/
theorem get_parameters_range_failure_nameError_witness :
    get_parameters_range (fun _ => FetchResult.raisesHTTP) reqUrl = .error .nameError :=
  get_parameters_range_failure_nameError (fun _ => FetchResult.raisesHTTP) reqUrl (Or.inl rfl)

/-- C2: on a 200 response reporting last year Y with Y at least 2011, the
returned token list encodes the years 2011 through Y: its length is
Y minus 2011 plus one, the encoded years start at 2011, end at Y, and are
contiguous and strictly increasing. -/
theorem get_parameters_range_token_sequence (fetch : String → FetchResult) (u : String)
    (d : Option RawData) (Y : Int) (hY : 2011 ≤ Y)
    (h : fetch (u ++ "S7A2011") = .resp 200 (some Y) d) :
    get_parameters_range fetch u = .ok (parametersListOf Y) ∧
    (parametersListOf Y).length = (Y - 2011 + 1).toNat ∧
    parametersListOf Y = (data_range Y).map (fun item => "S7A" ++ toString item) ∧
    (data_range Y).head? = some 2011 ∧
    (data_range Y).getLast? = some Y ∧
    List.Chain' (fun a b => b = a + 1) (data_range Y) := by
  obtain ⟨m, hm⟩ : ∃ m, (Y + 1 - 2011).toNat = m + 1 := ⟨(Y + 1 - 2011).toNat - 1, by omega⟩
  refine ⟨by simp [get_parameters_range, h], ?_, rfl, ?_, ?_, ?_⟩
  · simp only [parametersListOf, data_range, pyRange, List.length_map, List.length_range]
    omega
  · simp only [data_range, pyRange, hm, List.range_succ_eq_map, List.map_cons, List.head?_cons]
    norm_num
  · rw [data_range, pyRange, hm, List.range_succ, List.map_append]
    simp only [List.map_cons, List.map_nil]
    rw [List.getLast?_concat]
    refine congrArg some ?_
    omega
  · exact chain_succ_map_range _ _

/-- Witness for C2 with a reported last year of 2013. -/
theorem get_parameters_range_token_sequence_witness :
    get_parameters_range (fun _ => FetchResult.resp 200 (some 2013) none) reqUrl
      = .ok (parametersListOf 2013) ∧
    (parametersListOf 2013).length = ((2013 : Int) - 2011 + 1).toNat ∧
    parametersListOf 2013 = (data_range 2013).map (fun item => "S7A" ++ toString item) ∧
    (data_range 2013).head? = some 2011 ∧
    (data_range 2013).getLast? = some 2013 ∧
    List.Chain' (fun a b => b = a + 1) (data_range 2013) :=
  get_parameters_range_token_sequence (fun _ => FetchResult.resp 200 (some 2013) none)
    reqUrl none 2013 (by decide) rfl

/-- C3: on a well-shaped raw mapping the transformer succeeds with exactly
one row per leaf observation, in insertion order of the year keys and
source order within a year, and the Year cell of each row is the year key
the observation came from. -/
theorem transform_raw_data_rows_spec (raw : RawData) (h : WellShaped raw) :
    ∃ df, transform_raw_data raw = .ok df ∧
      df.rows = (raw.map (fun p => p.2.map (specRow p.1))).flatten ∧
      df.rows.map (fun row => List.lookup "Year" row)
        = (raw.map (fun p => p.2.map (fun _ => some p.1))).flatten ∧
      df.rows.length = (raw.map (fun p => p.2.length)).sum := by
  refine ⟨_, transform_wellShaped raw h, rfl, ?_, ?_⟩
  · exact rows_year_column raw (fun p hp => (h.2.2 p hp).2)
  · show ((raw.map (fun p => p.2.map (specRow p.1))).flatten).length = _
    rw [List.length_flatten, List.map_map]
    refine congrArg List.sum ?_
    refine List.map_congr_left ?_
    intro p hp
    show (p.2.map (specRow p.1)).length = p.2.length
    exact List.length_map p.2 (specRow p.1)

/-- Witness for C3 at the concrete two-year mapping. -/
theorem transform_raw_data_rows_spec_witness :
    ∃ df, transform_raw_data raw8 = .ok df ∧
      df.rows = (raw8.map (fun p => p.2.map (specRow p.1))).flatten ∧
      df.rows.map (fun row => List.lookup "Year" row)
        = (raw8.map (fun p => p.2.map (fun _ => some p.1))).flatten ∧
      df.rows.length = (raw8.map (fun p => p.2.length)).sum :=
  transform_raw_data_rows_spec raw8 ⟨by decide, by decide, by decide⟩

/-- C4: evaluation at the failing input. With a nonempty parameter list
whose first request returns a non-200 status, get_raw_data raises
NameError (reading the never-assigned local year in the success log of
the try/else clause) instead of returning the empty mapping the claim and
the spec describe; only an empty parameter list produces the empty
mapping, and the transformer applied to the empty mapping does fail with
the ValueError of concatenating no tables. -/
theorem get_raw_data_all_non200_crash :
    get_raw_data (fun _ => FetchResult.resp 404 none none) reqUrl ["S7A2011"]
      = .error .nameError ∧
    get_raw_data (fun _ => FetchResult.resp 404 none none) reqUrl [] = .ok [] ∧
    transform_raw_data [] = .error .valueError :=
  ⟨rfl, rfl, rfl⟩

/-- C5 counterexample: with the raw-sink upload failing, the run aborts
with the upload error, no clean CSV is ever uploaded, although the
transformer would have succeeded on the fetched mapping. So a raw-sink
failure does prevent the transform and clean-sink stages from running. -/
theorem raw_sink_failure_blocks_transform_cex :
    mainFn ⟨scenarioFetch, false, true⟩ = ([], some PyError.uploadError) ∧
    (∃ df, transform_raw_data raw8 = .ok df) ∧
    (∀ e ∈ (mainFn ⟨scenarioFetch, false, true⟩).1, ∀ lines, e ≠ Event.cleanUpload lines) := by
  refine ⟨rfl, ⟨_, rfl⟩, ?_⟩
  intro e he
  rw [show (mainFn ⟨scenarioFetch, false, true⟩).1 = [] from rfl] at he
  cases he

/-- C5 amended: both the raw sink and the transform consume only the
stage-2 raw mapping, and the clean CSV content is a function of that
mapping alone; but the stages run sequentially, so a raised raw-sink
upload failure aborts the run before the transform and clean sink
execute. -/
theorem pipeline_stage_dependence (env : Env) (ps : List String) (raw : RawData)
    (h1 : get_parameters_range env.fetch reqUrl = .ok ps)
    (h2 : get_raw_data env.fetch reqUrl ps = .ok raw) :
    (env.rawUploadOk = false → mainFn env = ([], some PyError.uploadError)) ∧
    (∀ df, env.rawUploadOk = true → env.cleanUploadOk = true →
      transform_raw_data raw = .ok df →
      mainFn env = ([Event.rawUpload raw, Event.cleanUpload (to_csv df)], none)) := by
  constructor
  · intro hb
    simp [mainFn, h1, h2, load_raw_data, hb]
  · intro df hb hc hdf
    simp [mainFn, h1, h2, load_raw_data, load_clean_data, hb, hc, hdf]

/-- Witness for C5 amended at the concrete scenario with a failing raw
sink. -/
theorem pipeline_stage_dependence_witness :
    ((false : Bool) = false →
      mainFn ⟨scenarioFetch, false, true⟩ = ([], some PyError.uploadError)) ∧
    (∀ df, (false : Bool) = true → (true : Bool) = true →
      transform_raw_data raw8 = .ok df →
      mainFn ⟨scenarioFetch, false, true⟩
        = ([Event.rawUpload raw8, Event.cleanUpload (to_csv df)], none)) :=
  pipeline_stage_dependence ⟨scenarioFetch, false, true⟩ ["S7A2011", "S7A2012"] raw8 rfl rfl

/-- C6 counterexample: on the two-year mapping, the Year column is not
identical on every row (it is 2011 on the first row and 2012 on the
second), so the claim that all four derived columns hold identical values
on every row fails as stated. -/
theorem year_column_not_constant_cex :
    (transform_raw_data raw8).map (fun df => df.rows.map (fun row => List.lookup "Year" row))
      = .ok [some "2011", some "2012"] ∧
    ¬ ∃ v : String, (transform_raw_data raw8).map
        (fun df => df.rows.map (fun row => List.lookup "Year" row)) = .ok [some v, some v] := by
  refine ⟨rfl, ?_⟩
  rintro ⟨v, hv⟩
  have h2 : ([some "2011", some "2012"] : List (Option String)) = [some v, some v] := by
    have h1 : (Except.ok [some "2011", some "2012"] : Except PyError (List (Option String)))
        = .ok [some v, some v] := by
      rw [← hv]; rfl
    exact Except.ok.inj h1
  simp only [List.cons.injEq, Option.some.injEq] at h2
  obtain ⟨h3, h4, -⟩ := h2
  rw [← h3] at h4
  exact absurd h4 (by decide)

/-- C6 amended: on well-shaped input the output schema never contains the
two flag columns and always contains the four derived columns; the three
constant columns hold the same value on every row, while the Year column
holds each row's own source year (constant only within a year). -/
theorem transform_schema_and_constants (raw : RawData) (h : WellShaped raw) :
    ∃ df, transform_raw_data raw = .ok df ∧
      df.cols = finalCols ∧
      ("sinal_conv" ∉ df.cols ∧ "sinal_conv_desc" ∉ df.cols) ∧
      (∀ row ∈ df.rows, List.lookup "sinal_conv" row = none ∧
        List.lookup "sinal_conv_desc" row = none) ∧
      ("Year" ∈ df.cols ∧ "Indicator Code" ∈ df.cols ∧ "Formule" ∈ df.cols ∧
        "Measure Of Unit" ∈ df.cols) ∧
      (∀ row ∈ df.rows, List.lookup "Indicator Code" row = some indicator ∧
        List.lookup "Formule" row = some formule ∧
        List.lookup "Measure Of Unit" row = some measureOfUnit) ∧
      df.rows.map (fun row => List.lookup "Year" row)
        = (raw.map (fun p => p.2.map (fun _ => some p.1))).flatten := by
  have hall : ∀ p ∈ raw, ∀ r ∈ p.2, r.map Prod.fst = ineKeys :=
    fun p hp => (h.2.2 p hp).2
  refine ⟨_, transform_wellShaped raw h, rfl,
    show ("sinal_conv" ∉ finalCols ∧ "sinal_conv_desc" ∉ finalCols) by decide, ?_,
    show ("Year" ∈ finalCols ∧ "Indicator Code" ∈ finalCols ∧ "Formule" ∈ finalCols ∧
      "Measure Of Unit" ∈ finalCols) by decide, ?_, ?_⟩
  · intro row hrow
    obtain ⟨p, r, hp, hr, rfl⟩ := mem_rows_structure raw row hrow
    exact specRow_lookup_flags p.1 r (hall p hp r hr)
  · intro row hrow
    obtain ⟨p, r, hp, hr, rfl⟩ := mem_rows_structure raw row hrow
    exact specRow_lookup_consts p.1 r (hall p hp r hr)
  · exact rows_year_column raw hall

/-- Witness for C6 amended at the concrete two-year mapping. -/
theorem transform_schema_and_constants_witness :
    ∃ df, transform_raw_data raw8 = .ok df ∧
      df.cols = finalCols ∧
      ("sinal_conv" ∉ df.cols ∧ "sinal_conv_desc" ∉ df.cols) ∧
      (∀ row ∈ df.rows, List.lookup "sinal_conv" row = none ∧
        List.lookup "sinal_conv_desc" row = none) ∧
      ("Year" ∈ df.cols ∧ "Indicator Code" ∈ df.cols ∧ "Formule" ∈ df.cols ∧
        "Measure Of Unit" ∈ df.cols) ∧
      (∀ row ∈ df.rows, List.lookup "Indicator Code" row = some indicator ∧
        List.lookup "Formule" row = some formule ∧
        List.lookup "Measure Of Unit" row = some measureOfUnit) ∧
      df.rows.map (fun row => List.lookup "Year" row)
        = (raw8.map (fun p => p.2.map (fun _ => some p.1))).flatten :=
  transform_schema_and_constants raw8 ⟨by decide, by decide, by decide⟩

/-- C7: evaluation at the failing input. When the first requested year
returns a non-200 status, get_raw_data raises NameError in the success
log of the try/else clause (the local year was never assigned) instead of
silently omitting the year: no mapping at all is returned. When the
failing year comes after a successful one, the failure is silently
skipped as the claim describes. -/
theorem get_raw_data_first_year_failure_crash :
    get_raw_data
      (fun u => if u = reqUrl ++ "S7A2012" then .resp 200 none (some [("2012", [rec12])])
        else .resp 404 none none)
      reqUrl ["S7A2011", "S7A2012"] = .error .nameError ∧
    get_raw_data
      (fun u => if u = reqUrl ++ "S7A2012" then .resp 200 none (some [("2012", [rec12])])
        else .resp 404 none none)
      reqUrl ["S7A2012", "S7A2011"] = .ok [("2012", [rec12])] :=
  ⟨rfl, rfl⟩

/-- C8: in the end-to-end scenario (last year reported 2012, one
observation for each of 2011 and 2012) the run uploads the merged raw
mapping and a CSV of exactly one header line, in the claimed column
order, plus two data rows. -/
theorem end_to_end_scenario_csv :
    mainFn ⟨scenarioFetch, true, true⟩
      = ([Event.rawUpload raw8, Event.cleanUpload [csvHeader, csvRow1, csvRow2]], none) ∧
    csvHeader = "Geo Code,Geo,Crime Code,Crime,Value,Year,Indicator Code,Formule,Measure Of Unit" ∧
    [csvRow1, csvRow2].length = 2 :=
  ⟨rfl, rfl, rfl⟩

/-- C9: the transformer does not modify its input: threading the raw
mapping through every step that receives it returns the mapping unchanged
while producing the same table as transform_raw_data. -/
theorem transform_raw_data_preserves_input (raw : RawData) :
    (transform_raw_data_st raw).2 = raw ∧
    (transform_raw_data_st raw).1 = transform_raw_data raw := by
  have hf := transform_st_foldl raw raw []
  constructor
  · simp only [transform_raw_data_st, json_normalize_st]
    rw [hf]
    cases hc : concat (raw.map fun item => setColumn (json_normalize raw item.1) "Year" item.1) with
    | error e => simp [hc]
    | ok df0 =>
      cases hd : dropColumns (setColumn (setColumn (setColumn df0 "Indicator Code" indicator)
          "Formule" formule) "Measure Of Unit" measureOfUnit) flagColumns with
      | error e => simp [hc, hd]
      | ok df4 => simp [hc, hd]
  · simp only [transform_raw_data_st, transform_raw_data, json_normalize_st]
    rw [hf]
    simp only [List.nil_append]
    cases hc : concat (raw.map fun item => setColumn (json_normalize raw item.1) "Year" item.1) with
    | error e => simp [hc]
    | ok df0 =>
      cases hd : dropColumns (setColumn (setColumn (setColumn df0 "Indicator Code" indicator)
          "Formule" formule) "Measure Of Unit" measureOfUnit) flagColumns with
      | error e => simp [hc, hd]
      | ok df4 => simp [hc, hd]

/-- Witness for C9 at the concrete two-year mapping. -/
theorem transform_raw_data_preserves_input_witness :
    (transform_raw_data_st raw8).2 = raw8 ∧
    (transform_raw_data_st raw8).1 = transform_raw_data raw8 :=
  transform_raw_data_preserves_input raw8

/-- C10: the merge of per-year responses is dict.update, so it is keyed by
whatever year labels the response body supplies, not by the requested
token: a duplicate key is overwritten by the later response (in place,
keeping its position) and a label unrelated to the requested year is
inserted. -/
theorem get_raw_data_update_last_writer_wins (k k2 : String) (v1 v2 v3 : List Record)
    (hk : k ≠ k2) :
    get_raw_data
      (fun u =>
        if u = reqUrl ++ "S7A2011" then .resp 200 none (some [(k, v1)])
        else if u = reqUrl ++ "S7A2012" then .resp 200 none (some [(k, v2), (k2, v3)])
        else .raisesOther)
      reqUrl ["S7A2011", "S7A2012"] = .ok [(k, v2), (k2, v3)] := by
  have h1 : (reqUrl ++ "S7A2011" = reqUrl ++ "S7A2011") = True := by simp
  have h2 : (reqUrl ++ "S7A2012" = reqUrl ++ "S7A2011") = False := by
    simp only [eq_iff_iff, iff_false]
    decide
  have hkk : (k == k) = true := by simp
  have hkk2 : (k == k2) = false := by simp [hk]
  simp [get_raw_data, get_raw_data_loop, h1, h2, dictUpdate, dictSet, hkk, hkk2]

/-- Witness for C10: the 2012 response carries the key 2011 again plus an
unrelated 2025 key; the 2011 data is overwritten and 2025 inserted. -/
theorem get_raw_data_update_last_writer_wins_witness :
    get_raw_data
      (fun u =>
        if u = reqUrl ++ "S7A2011" then .resp 200 none (some [("2011", [rec11])])
        else if u = reqUrl ++ "S7A2012" then .resp 200 none (some [("2011", [rec12]), ("2025", [])])
        else .raisesOther)
      reqUrl ["S7A2011", "S7A2012"] = .ok [("2011", [rec12]), ("2025", [])] :=
  get_raw_data_update_last_writer_wins "2011" "2025" [rec11] [rec12] [] (by decide)
